import Mathlib

/-!
# Verification of the Shopify MCP server client layer

Shallow embedding, in Lean 4, of the parts of `src/ShopifyClient/ShopifyClient.ts`
that the specification's testable properties are about: the pagination-header
parser, the composite collection cursor, the id helpers (`ensureGid` /
`getIdFromGid`), the discount-creation pipeline (input validation, subscription
eligibility, mutation-variable preparation, user-error handling), the
draft-order completion pipeline (variant pre-check, user-error handling), the
GraphQL transport entry point, and the `loadOrders` variable construction.

JavaScript strings are modelled as `List Char` (named `Str` below), so that
`String.prototype.split`, `includes`, `startsWith` and template-literal
interpolation can be embedded executably and reasoned about by induction.

The error taxonomy lives in `ShopifyClientPort.ts`, which is not part of the
sources under verification; its closed set of error kinds is modelled from the
spec (§3 TypedError, §7) where noted.

A remark on domain resolution: in the source, `getMyShopifyDomain`
(ShopifyClient.ts:322) awaits `this.loadShop`, and `loadShop`
(ShopifyClient.ts:1011) awaits `this.getMyShopifyDomain`, with no base case;
the two are mutually recursive and the intended single shop-lookup round trip
(per the spec's CanonicalDomain entity) never completes at runtime. Since a
non-terminating definition has no shallow embedding as a Lean function, domain
resolution is modelled here as the intended single `shopLookup` transport step;
every operation-level theorem below is therefore conditional on the transport
oracle supplying responses, exactly as the claims themselves are conditional
on transport results.
-/

namespace ShopifyMcp

/-- JavaScript strings, modelled as their character sequences. -/
abbrev Str := List Char

/-- The characters of a Lean string literal, used to write `Str` constants. -/
def strLit (s : String) : Str := s.data

/-- Embedding of JavaScript `String.prototype.startsWith(needle)` /
`Array.prototype` prefix testing: `needle.isPrefixOf hay`. -/
def jsStartsWith (needle hay : Str) : Bool := needle.isPrefixOf hay

/-- Embedding of JavaScript `String.prototype.includes(needle)`: `needle`
occurs as a contiguous substring of `hay`. -/
def jsIncludes (needle : Str) : Str → Bool
  | [] => needle.isPrefixOf []
  | c :: cs => needle.isPrefixOf (c :: cs) || jsIncludes needle cs

/-- Worker for the single-character split: the segment up to the first
separator, and the list of remaining segments. -/
def jsSplitCharP (sep : Char) : Str → Str × List Str
  | [] => ([], [])
  | c :: cs =>
    let r := jsSplitCharP sep cs
    if c = sep then ([], r.1 :: r.2) else (c :: r.1, r.2)

/-- Embedding of JavaScript `String.prototype.split(sep)` for a single-character
separator (the source's `gid.split("/")` in `getIdFromGid`,
ShopifyClient.ts:2650). JS `split` never returns an empty array; splitting the
empty string yields `[""]`. -/
def jsSplitChar (sep : Char) (l : Str) : List Str :=
  (jsSplitCharP sep l).1 :: (jsSplitCharP sep l).2

/-- First occurrence of the (non-empty) separator `sep` in a string: the part
strictly before it and the remainder strictly after it. -/
def findSplit (sep : Str) : Str → Option (Str × Str)
  | [] => if sep = [] then some ([], []) else none
  | c :: cs =>
    if sep.isPrefixOf (c :: cs) then some ([], (c :: cs).drop sep.length)
    else
      match findSplit sep cs with
      | some (pre, post) => some (c :: pre, post)
      | none => none

/-- Fuelled worker for `jsSplit`; the fuel `jsSplit` passes is always
sufficient for a non-empty separator, since each step strictly shortens the
remainder. -/
def jsSplitFuel (sep : Str) : Nat → Str → List Str
  | 0, l => [l]
  | n + 1, l =>
    match findSplit sep l with
    | none => [l]
    | some (pre, post) => pre :: jsSplitFuel sep n post

/-- Embedding of JavaScript `String.prototype.split(sep)` for a general
non-empty separator (the source's `link.split('rel="previous"')` and friends
in `getShopifyOrdersNextPage`, ShopifyClient.ts:130-136, and `next?.split(",")`
in `loadCollections`, ShopifyClient.ts:953). -/
def jsSplit (sep l : Str) : List Str := jsSplitFuel sep (l.length + 1) l

/-- Embedding of `ShopifyClient.ensureGid` (ShopifyClient.ts:2657-2662):
an id already carrying the `gid://shopify/` prefix is returned unchanged,
anything else is wrapped as `gid://shopify/<type>/<id>`. -/
def ensureGid (id ty : Str) : Str :=
  if jsStartsWith (strLit "gid://shopify/") id then id
  else strLit "gid://shopify/" ++ ty ++ strLit "/" ++ id

/-- Embedding of `ShopifyClient.getIdFromGid` (ShopifyClient.ts:2649-2655):
`gid.split("/").pop()`, throwing `Error("Invalid GID")` when the popped value
is falsy (the empty string; `pop` of the never-empty `split` result cannot be
`undefined`). Fallible code is returned as `Except`. -/
def getIdFromGid (gid : Str) : Except Str Str :=
  match (jsSplitChar '/' gid).getLast? with
  | none => .error (strLit "Invalid GID")
  | some id => if id = [] then .error (strLit "Invalid GID") else .ok id

/-- Embedding of `ShopifyClient.getShopifyOrdersNextPage`
(ShopifyClient.ts:125-137). A missing or falsy (empty) header, or a header
without the substring `next`, yields no cursor. When both `next` and
`previous` occur, the cursor is cut out of the part after the
`rel="previous"` marker; otherwise out of the whole header. A JS `TypeError`
(splitting `undefined` when a marker is absent) is modelled as `.error ()`. -/
def getShopifyOrdersNextPage (link : Option Str) : Except Unit (Option Str) :=
  match link with
  | none => .ok none
  | some l =>
    if l = [] then .ok none
    else if ¬ jsIncludes (strLit "next") l then .ok none
    else if jsIncludes (strLit "previous") l then
      match (jsSplit (strLit "rel=\"previous\"") l)[1]? with
      | none => .error ()
      | some s1 =>
        match (jsSplit (strLit "page_info=") s1)[1]? with
        | none => .error ()
        | some s2 => .ok (some ((jsSplit (strLit ">; rel=\"next\"") s2).headD []))
    else
      match (jsSplit (strLit "page_info=") l)[1]? with
      | none => .error ()
      | some s2 => .ok (some ((jsSplit (strLit ">; rel=\"next\"") s2).headD []))

/-- JS truthiness of a possibly-undefined string: `undefined` and the empty
string are falsy (the condition of ShopifyClient.ts:1003). -/
def truthyStr : Option Str → Bool
  | none => false
  | some s => !s.isEmpty

/-- JS template-literal interpolation of a possibly-undefined string: `${x}`
renders `undefined` as the literal token `undefined`
(ShopifyClient.ts:1004). -/
def jsInterpolate : Option Str → Str
  | none => strLit "undefined"
  | some s => s

/-- Embedding of the outgoing composite-cursor computation at the end of
`loadCollections` (ShopifyClient.ts:1003-1007). The arguments are
`customCollectionsNextPage` and `smartCollectionsNextPage`: each is the
`getShopifyOrdersNextPage` parse of its sub-response's `link` header when
that side was queried, and `undefined` when the side was skipped because its
half of the incoming cursor was the sentinel. -/
def mergeCollectionsNext (customNP smartNP : Option Str) : Option Str :=
  if truthyStr customNP || truthyStr smartNP then
    some (jsInterpolate customNP ++ strLit "," ++ jsInterpolate smartNP)
  else none

/-- The caller-facing `loadOrders` query parameters (the fields read at
ShopifyClient.ts:896-902). -/
structure ShopifyOrdersGraphqlQueryParams where
  first : Option Int
  after : Option Str
  search : Option Str
  sortKey : Option Str
  reverse : Option Bool

/-- The GraphQL variables `loadOrders` passes to the transport layer. -/
structure LoadOrdersVariables where
  first : Int
  after : Option Str
  search : Option Str
  sortKey : Option Str
  reverse : Option Bool

/-- JS `x || d` for a possibly-undefined number: `undefined` and `0` are
falsy and give the default. -/
def jsOrNumber (x : Option Int) (d : Int) : Int :=
  match x with
  | none => d
  | some n => if n = 0 then d else n

/-- Embedding of the `variables` construction in `loadOrders`
(ShopifyClient.ts:896-902): `first: queryParams.first || 50`, every other
field passed through unchanged. (The source's `query` field is named
`search` here.) -/
def buildLoadOrdersVariables (q : ShopifyOrdersGraphqlQueryParams) : LoadOrdersVariables :=
  { first := jsOrNumber q.first 50
    after := q.after
    search := q.search
    sortKey := q.sortKey
    reverse := q.reverse }

/-! ## Error taxonomy and classifier

The error classes and classifier helpers live in `ShopifyClientPort.ts`,
which is not among the sources under verification; they are modelled from
the spec where marked. -/

/-- A user-error entry of a mutation response: field path, message and
optional code, as selected by the mutation documents
(ShopifyClient.ts:491-495 and ShopifyClient.ts:1371-1374). -/
structure UserErrorEntry where
  field : List Str
  message : Str
  code : Option Str
deriving DecidableEq

/-- Modelled from the spec: the closed TypedError taxonomy of §3/§7 of the
spec; the concrete error classes live in `ShopifyClientPort.ts`, which is
not under src/. Context data carried for diagnostics is not modelled. -/
inductive TypedError
  | authorizationError
  | inputError (message : Str)
  | paymentError
  | requestError
  | generalClientError
  | variantNotFoundError
  | variantNotAvailableForSaleError
  | userError (errors : List UserErrorEntry)
deriving DecidableEq

/-- A top-level GraphQL `errors` entry. `indicatesAuth` abstracts "a GraphQL
error whose code/message indicates an access-scope or authentication
failure" — Modelled from the spec (§4.1 rule 1): the concrete string
matching lives in `ShopifyClientPort.ts`, which is not under src/. -/
structure GraphqlErrorEntry where
  message : Str
  indicatesAuth : Bool
deriving DecidableEq

/-- Modelled from the spec: `getGraphqlShopifyError` of
`ShopifyClientPort.ts` (not under src/), following the Classifier contract
of §4.1 in priority order: 401/403 or an auth-indicating GraphQL error →
AuthorizationError; 402 → PaymentError; any other GraphQL `errors` signal →
RequestError. -/
def getGraphqlShopifyError (status : Nat) (errors : List GraphqlErrorEntry) :
    TypedError :=
  if status = 401 ∨ status = 403 ∨ errors.any (·.indicatesAuth) then
    .authorizationError
  else if status = 402 then .paymentError
  else .requestError

/-- Modelled from the spec: `getGraphqlShopifyUserError` of
`ShopifyClientPort.ts` (not under src/), per §4.1 rule 4: a mutation's
non-empty `userErrors` list becomes a UserError carrying the full list. -/
def getGraphqlShopifyUserError (errors : List UserErrorEntry) : TypedError :=
  .userError errors

/-- A failure of an operation: a classified typed error, or a raw JavaScript
`TypeError` escaping a response-unwrapping step (such code is outside the
transport layer's try/catch, so it is not wrapped). -/
inductive OpError
  | typed (e : TypedError)
  | jsTypeError
deriving DecidableEq

/-! ## Transport layer: the GraphQL entry point -/

/-- The parsed JSON body of a GraphQL HTTP response: the payload plus the
optional top-level `errors` array (`none` models an absent or null field;
a present array — even an empty one — is JS-truthy). -/
structure GraphqlResponseBody (α : Type) where
  payload : α
  errors : Option (List GraphqlErrorEntry)

/-- A GraphQL HTTP response as seen after `fetch` and `response.json()`. -/
structure GraphqlHttpResponse (α : Type) where
  ok : Bool
  status : Nat
  body : GraphqlResponseBody α

/-- Embedding of `ShopifyClient.shopifyGraphqlRequest`
(ShopifyClient.ts:229-320) after response parsing: when the HTTP status is
not ok **or** the body carries a top-level `errors` field, an enriched error
is thrown and the catch block routes it through `getGraphqlShopifyError`
(the thrown object always carries `response`, so the classifier branch is
taken); otherwise the parsed body is returned. The classifier receives the
`errors` array when present (the source's
`data.error ?? data.errors ?? data ?? status` coalescing picks it). -/
def shopifyGraphqlRequest {α : Type} (resp : GraphqlHttpResponse α) :
    Except TypedError α :=
  if resp.ok = false ∨ resp.body.errors.isSome then
    .error (getGraphqlShopifyError resp.status (resp.body.errors.getD []))
  else .ok resp.body.payload

/-! ## Domain operation: createBasicDiscountCode -/

/-- The two discount value kinds accepted by the create-discount tool. -/
inductive DiscountValueType
  | percentage
  | fixed_amount
deriving DecidableEq

/-- The discount-combination flags of the discount input. -/
structure CombinesWith where
  productDiscounts : Bool
  orderDiscounts : Bool
  shippingDiscounts : Bool
deriving DecidableEq

/-- The `createBasicDiscountCode` input, with the fields the operation reads
(validation at ShopifyClient.ts:372-400 and variable preparation at
ShopifyClient.ts:501-564). JS numbers are modelled as rationals. -/
structure CreateBasicDiscountCodeInput where
  title : Str
  code : Str
  startsAt : Str
  endsAt : Option Str
  valueType : DiscountValueType
  value : ℚ
  appliesOncePerCustomer : Bool
  usageLimit : Option Int
  includeCollectionIds : List Str
  excludeCollectionIds : List Str
  combinesWith : CombinesWith

/-- A JSON field value distinguishing omission (`undefined`, which
`JSON.stringify` drops from the serialized payload) from an explicit `null`
and from a present value. -/
inductive JField (α : Type)
  | absent
  | jnull
  | val (a : α)
deriving DecidableEq

/-- The `items.collections` sub-object of the discount variables. -/
structure DiscountItemsCollections where
  add : List Str
  remove : List Str
deriving DecidableEq

/-- The `basicCodeDiscount` mutation variables built by
`prepareBasicDiscountCodeVariable`, with JSON presence made explicit. -/
structure BasicCodeDiscountVariables where
  title : Str
  code : Str
  startsAt : Str
  endsAt : Option Str
  customerSelectionAll : Bool
  appliesOnOneTimePurchase : JField Bool
  appliesOnSubscription : JField Bool
  valuePercentage : JField ℚ
  valueDiscountAmount : JField (ℚ × Bool)
  itemsAll : Bool
  itemsCollections : Option DiscountItemsCollections
  appliesOncePerCustomer : Bool
  recurringCycleLimit : JField Int
  usageLimit : Option Int
  combinesWith : CombinesWith

/-- The collection GlobalId interpolation of ShopifyClient.ts:540-545. -/
def gidForCollection (id : Str) : Str := strLit "gid://shopify/Collection/" ++ id

/-- Embedding of `prepareBasicDiscountCodeVariable`
(ShopifyClient.ts:501-564). The subscription-specific fields are
`isEligibleForSubscription ? ... : undefined`; `recurringCycleLimit` is
`1` for fixed-amount and an explicit `null` for percentage when eligible,
`undefined` otherwise. -/
def prepareBasicDiscountCodeVariable (discountInput : CreateBasicDiscountCodeInput)
    (isEligibleForSubscription : Bool) : BasicCodeDiscountVariables :=
  { title := discountInput.title
    code := discountInput.code
    startsAt := discountInput.startsAt
    endsAt := discountInput.endsAt
    customerSelectionAll := true
    appliesOnOneTimePurchase :=
      if isEligibleForSubscription then .val true else .absent
    appliesOnSubscription :=
      if isEligibleForSubscription then .val true else .absent
    valuePercentage :=
      if discountInput.valueType = .percentage then .val discountInput.value
      else .absent
    valueDiscountAmount :=
      if discountInput.valueType = .fixed_amount then
        .val (discountInput.value, false)
      else .absent
    itemsAll :=
      discountInput.excludeCollectionIds.isEmpty &&
        discountInput.includeCollectionIds.isEmpty
    itemsCollections :=
      if discountInput.includeCollectionIds.isEmpty &&
          discountInput.excludeCollectionIds.isEmpty then none
      else
        some ⟨discountInput.includeCollectionIds.map gidForCollection,
              discountInput.excludeCollectionIds.map gidForCollection⟩
    appliesOncePerCustomer := discountInput.appliesOncePerCustomer
    recurringCycleLimit :=
      if isEligibleForSubscription then
        if discountInput.valueType = .fixed_amount then .val 1 else .jnull
      else .absent
    usageLimit := discountInput.usageLimit
    combinesWith := discountInput.combinesWith }

/-- The shop features read by the eligibility query
(ShopifyClient.ts:335-344). -/
structure ShopFeatures where
  eligibleForSubscriptions : Bool
  sellsSubscriptions : Bool
deriving DecidableEq

/-- Embedding of `checkSubscriptionEligibility` (ShopifyClient.ts:331-365),
given the features the shop query returned: both flags must hold. -/
def checkSubscriptionEligibility (f : ShopFeatures) : Bool :=
  f.eligibleForSubscriptions && f.sellsSubscriptions

/-- Embedding of the local input validation at the top of
`createBasicDiscountCode` (ShopifyClient.ts:372-400): a percentage value
outside [0,1], or a non-positive fixed amount, throws before anything else
runs. The thrown `CustomError(..., "InvalidInputError")` is classed as the
taxonomy's InputError — Modelled from the spec (§4.3: "violating either
raises InputError locally"); the `CustomError` class lives in
`ShopifyClientPort.ts`, not under src/. -/
def validateDiscountInput (discountInput : CreateBasicDiscountCodeInput) :
    Option TypedError :=
  if discountInput.valueType = .percentage ∧
      (discountInput.value < 0 ∨ discountInput.value > 1) then
    some (.inputError
      (strLit "Invalid input: percentage value must be between 0 and 1"))
  else if discountInput.valueType = .fixed_amount ∧ discountInput.value ≤ 0 then
    some (.inputError
      (strLit "Invalid input: fixed_amount value must be greater than 0"))
  else none

/-- The transport round trips the modelled operations can issue. -/
inductive TransportCall
  | shopLookup
  | subscriptionEligibilityQuery
  | discountCodeBasicCreateMutation
  | variantsByIdsQuery
  | draftOrderCompleteMutation
deriving DecidableEq

/-- The `codeDiscountNode` payload of a `discountCodeBasicCreate` response:
the new discount node's id and its list of codes, per the mutation document
(ShopifyClient.ts:443-499). -/
structure BasicCodeDiscountNode where
  id : Str
  codes : List Str

/-- The shape of the `discountCodeBasicCreate` response unwrapped at
ShopifyClient.ts:424-428: the payload node — null when the remote API
rejected the mutation, which is exactly the shape a response with a
non-empty `userErrors` list normally has — and the `userErrors` list. -/
structure BasicDiscountCodeResponse where
  codeDiscountNode : Option BasicCodeDiscountNode
  userErrors : List UserErrorEntry

/-- The success payload of `createBasicDiscountCode`
(ShopifyClient.ts:437-440). -/
structure CreateBasicDiscountCodeResult where
  id : Str
  code : Str
deriving DecidableEq

/-- The transport oracle for `createBasicDiscountCode`: what its round trips
return when each of them succeeds. -/
structure DiscountEnv where
  features : ShopFeatures
  mutationResponse : BasicDiscountCodeResponse

/-- What `createBasicDiscountCode` handed to the transport layer: the calls
issued, and the mutation variables when the mutation round was reached. -/
structure DiscountCallTrace where
  calls : List TransportCall
  sentVariables : Option BasicCodeDiscountVariables

/-- Embedding of `createBasicDiscountCode` (ShopifyClient.ts:367-441):
validate locally (throwing with zero transport calls), resolve the
canonical domain, read subscription eligibility, send the mutation built by
`prepareBasicDiscountCodeVariable`, and unwrap the response. The unwrap
order follows the source: `codeDiscountNode.id` is read at ts:424 **before**
the `userErrors` check at ts:430, so a null `codeDiscountNode` throws a raw
JS `TypeError` there even when `userErrors` is non-empty; only with a
non-null node does a non-empty `userErrors` list throw a UserError, and
otherwise the node id and first code are returned (reading `.code` of the
first element of an empty `codes` list is again a `TypeError`, at
ts:439). -/
def createBasicDiscountCode (env : DiscountEnv)
    (discountInput : CreateBasicDiscountCodeInput) :
    Except OpError CreateBasicDiscountCodeResult × DiscountCallTrace :=
  match validateDiscountInput discountInput with
  | some e => (.error (.typed e), ⟨[], none⟩)
  | none =>
    let isEligibleForSubscription := checkSubscriptionEligibility env.features
    let sentVars :=
      prepareBasicDiscountCodeVariable discountInput isEligibleForSubscription
    let resp := env.mutationResponse
    let trace : DiscountCallTrace :=
      ⟨[.shopLookup, .subscriptionEligibilityQuery,
        .discountCodeBasicCreateMutation], some sentVars⟩
    match resp.codeDiscountNode with
    | none => (.error .jsTypeError, trace)
    | some node =>
      if resp.userErrors ≠ [] then
        (.error (.typed (getGraphqlShopifyUserError resp.userErrors)), trace)
      else
        match node.codes with
        | [] => (.error .jsTypeError, trace)
        | c :: _ => (.ok ⟨node.id, c⟩, trace)

/-! ## Domain operation: completeDraftOrder -/

/-- A product variant as returned by the `loadVariantsByIds` lookup, with
the field the pre-check reads. -/
structure ProductVariant where
  id : Str
  availableForSale : Bool
deriving DecidableEq

/-- The `order` reference inside a completed draft order
(ShopifyClient.ts:1367-1369). -/
structure DraftOrderOrderRef where
  id : Str
deriving DecidableEq

/-- The `draftOrder` payload node of a `draftOrderComplete` response: id,
name, and the created order, itself null unless completion succeeded. -/
structure DraftOrderNode where
  id : Str
  name : Str
  order : Option DraftOrderOrderRef
deriving DecidableEq

/-- The shape of the `draftOrderComplete` response unwrapped at
ShopifyClient.ts:1404-1406: the payload node — null when the remote API
rejected the mutation, which is exactly the shape a response with a
non-empty `userErrors` list normally has — and the `userErrors` list. -/
structure DraftOrderCompleteResponse where
  draftOrder : Option DraftOrderNode
  userErrors : List UserErrorEntry

/-- The success payload of `completeDraftOrder`
(ShopifyClient.ts:1416-1420). -/
structure CompleteDraftOrderResult where
  draftOrderId : Str
  orderId : Str
  draftOrderName : Str
deriving DecidableEq

/-- Embedding of `completeDraftOrder` (ShopifyClient.ts:1328-1421): the
variant is looked up first (`loadVariantsByIds`: domain resolution plus the
nodes query); an empty lookup result throws VariantNotFoundError, a first
variant not available for sale throws VariantNotAvailableForSaleError, and
only otherwise is the domain resolved again and the `draftOrderComplete`
mutation attempted. The response unwrap follows the source's order:
`draftOrder.order` is read at ts:1405 **before** the `userErrors` check at
ts:1408, so a null `draftOrder` throws a raw JS `TypeError` there even when
`userErrors` is non-empty; with a non-null node a non-empty `userErrors`
list throws a UserError carrying exactly that list, and otherwise `order.id`
is read at ts:1418 (a `TypeError` when `order` is null). `variants` is the
lookup's result (the response nodes filtered to product variants,
ShopifyClient.ts:1257-1264); `resp` is what the mutation returns when its
transport round succeeds. -/
def completeDraftOrder (variants : List ProductVariant)
    (resp : DraftOrderCompleteResponse) :
    Except OpError CompleteDraftOrderResult × List TransportCall :=
  match variants with
  | [] =>
    (.error (.typed .variantNotFoundError), [.shopLookup, .variantsByIdsQuery])
  | v :: _ =>
    if v.availableForSale then
      (match resp.draftOrder with
       | none => .error .jsTypeError
       | some d =>
         if resp.userErrors ≠ [] then
           .error (.typed (getGraphqlShopifyUserError resp.userErrors))
         else
           match d.order with
           | none => .error .jsTypeError
           | some o => .ok ⟨d.id, o.id, d.name⟩,
       [.shopLookup, .variantsByIdsQuery, .shopLookup,
        .draftOrderCompleteMutation])
    else
      (.error (.typed .variantNotAvailableForSaleError),
       [.shopLookup, .variantsByIdsQuery])

end ShopifyMcp

namespace ShopifyMcp

/-! ## Lemmas about the split embeddings -/

theorem jsSplitCharP_of_not_mem (sep : Char) (l : Str) (h : sep ∉ l) :
    jsSplitCharP sep l = (l, []) := by
  induction l with
  | nil => rfl
  | cons c cs ih =>
    simp only [List.mem_cons, not_or] at h
    simp [jsSplitCharP, ih h.2, Ne.symm h.1]

theorem jsSplitChar_of_not_mem (sep : Char) (l : Str) (h : sep ∉ l) :
    jsSplitChar sep l = [l] := by
  simp [jsSplitChar, jsSplitCharP_of_not_mem sep l h]

/-- Splitting distributes over a separator occurrence: the segments of
`xs ++ sep :: ys` are the segments of `xs` followed by those of `ys`. -/
theorem jsSplitChar_append_sep (sep : Char) (xs ys : Str) :
    jsSplitChar sep (xs ++ sep :: ys) = jsSplitChar sep xs ++ jsSplitChar sep ys := by
  induction xs with
  | nil => simp [jsSplitChar, jsSplitCharP]
  | cons c cs ih =>
    simp only [jsSplitChar] at ih ⊢
    simp only [List.cons_append, jsSplitCharP]
    rcases hP : jsSplitCharP sep (cs ++ sep :: ys) with ⟨h1, h2⟩
    rcases hQ : jsSplitCharP sep cs with ⟨q1, q2⟩
    rw [hP] at ih
    by_cases hc : c = sep <;>
      simp_all [List.cons.injEq]

theorem jsSplitChar_append_sep_getLast? (sep : Char) (xs ys : Str) :
    (jsSplitChar sep (xs ++ sep :: ys)).getLast? = (jsSplitChar sep ys).getLast? := by
  rw [jsSplitChar_append_sep]
  exact List.getLast?_append_cons _ _ _

/-! ## C8 and C9: the id helpers -/

/-- C8 — `ensureGid` is a no-op on ids already in GlobalId form: for every id
starting with `gid://shopify/` and every resource-type tag,
`ensureGid id ty = id`. -/
theorem ensureGid_idempotent_on_gid (id ty : Str)
    (h : jsStartsWith (strLit "gid://shopify/") id = true) :
    ensureGid id ty = id := by
  simp [ensureGid, h]

/-- Witness for C8 at a concrete GlobalId. -/
theorem ensureGid_idempotent_on_gid_witness :
    ensureGid (strLit "gid://shopify/Product/42") (strLit "Collection")
      = strLit "gid://shopify/Product/42" :=
  ensureGid_idempotent_on_gid _ _ (by decide)

/-- C9 — round trip of the id helpers: for every non-empty id that is not
already in GlobalId form and contains no slash, and every resource-type tag,
`getIdFromGid (ensureGid id ty) = id`. -/
theorem getIdFromGid_ensureGid_roundtrip (id ty : Str)
    (hne : id ≠ [])
    (hpre : jsStartsWith (strLit "gid://shopify/") id = false)
    (hslash : '/' ∉ id) :
    getIdFromGid (ensureGid id ty) = .ok id := by
  have hG : ensureGid id ty = (strLit "gid://shopify/" ++ ty) ++ '/' :: id := by
    simp only [ensureGid, hpre, Bool.false_eq_true, if_false]
    simp [strLit, List.append_assoc]
  rw [getIdFromGid, hG, jsSplitChar_append_sep_getLast?,
    jsSplitChar_of_not_mem _ _ hslash]
  simp [hne]

/-- Witness for C9 at a concrete bare id. -/
theorem getIdFromGid_ensureGid_roundtrip_witness :
    getIdFromGid (ensureGid (strLit "12345") (strLit "Product"))
      = .ok (strLit "12345") :=
  getIdFromGid_ensureGid_roundtrip _ _ (by decide) (by decide) (by decide)

/-! ## C4: the pagination-header parser -/

instance {ε α : Type} [DecidableEq ε] [DecidableEq α] : DecidableEq (Except ε α)
  | .ok a, .ok b =>
    if h : a = b then .isTrue (by rw [h])
    else .isFalse (by intro hh; cases hh; exact h rfl)
  | .ok _, .error _ => .isFalse (by intro h; cases h)
  | .error _, .ok _ => .isFalse (by intro h; cases h)
  | .error e, .error f =>
    if h : e = f then .isTrue (by rw [h])
    else .isFalse (by intro hh; cases hh; exact h rfl)

/-- A `Link` header carrying both a `rel="previous"` and a `rel="next"`
marker, with `page_info=XYZ` in the next segment. -/
def linkBothMarkers : Str :=
  strLit "<https://shop.example/admin/custom_collections.json?limit=5&page_info=prevtok>; rel=\"previous\", <https://shop.example/admin/custom_collections.json?limit=5&page_info=XYZ>; rel=\"next\""

/-- A `Link` header carrying only a `rel="next"` marker with
`page_info=ABC`. -/
def linkOnlyNext : Str :=
  strLit "<https://shop.example/admin/custom_collections.json?limit=5&page_info=ABC>; rel=\"next\""

/-- A `Link` header with no `next` marker at all. -/
def linkOnlyPrevious : Str :=
  strLit "<https://shop.example/admin/custom_collections.json?limit=5&page_info=prevtok>; rel=\"previous\""

set_option maxRecDepth 100000 in
/-- C4 — the three-branch contract of the pagination-header parser: with
both `rel="previous"` and `rel="next"` markers and `page_info=XYZ` in the
next segment the cursor is `XYZ`; with only `rel="next"` and `page_info=ABC`
the cursor is `ABC`; with no `next` marker (and for a missing header) there
is no cursor. -/
theorem getShopifyOrdersNextPage_three_branches :
    getShopifyOrdersNextPage (some linkBothMarkers) = .ok (some (strLit "XYZ")) ∧
    getShopifyOrdersNextPage (some linkOnlyNext) = .ok (some (strLit "ABC")) ∧
    getShopifyOrdersNextPage (some linkOnlyPrevious) = .ok none ∧
    getShopifyOrdersNextPage none = .ok none := by
  exact ⟨by decide, by decide, by decide, rfl⟩

/-! ## C5: the composite collection cursor -/

/-- Claim C5 word for word: the outgoing composite cursor is `undefined`
exactly when both sub-resources report no further page (no parsed
sub-cursor), and when at least one reports a next page, the outgoing cursor
is the comma join of the two sub-cursors with an exhausted side rendered as
the sentinel token. -/
def compositeCursorClaim : Prop :=
  ∀ customNP smartNP : Option Str,
    (mergeCollectionsNext customNP smartNP = none ↔
      customNP = none ∧ smartNP = none) ∧
    (customNP ≠ none ∨ smartNP ≠ none →
      mergeCollectionsNext customNP smartNP =
        some (jsInterpolate customNP ++ strLit "," ++ jsInterpolate smartNP))

/-- C5 counterexample — the claim fails when a sub-resource reports the
empty-string cursor (reachable from a header of the form
`<...page_info=>; rel="next"`): the custom side reports the cursor `""`,
which is JS-falsy, so the outgoing cursor is `undefined` even though the
custom side did report a further page. -/
theorem mergeCollectionsNext_claim_false : ¬ compositeCursorClaim := by
  intro h
  exact Option.noConfusion ((h (some []) none).1.mp (by decide)).1

/-- C5 amended — the outgoing composite cursor is `undefined` exactly when
each sub-cursor is absent or empty (JS-falsy); when at least one side
reports a non-empty cursor, the outgoing cursor is the comma join of the two
sub-cursors, an absent side rendered as the sentinel token `undefined` (and
an empty-string side rendered as the empty string). -/
theorem mergeCollectionsNext_spec (customNP smartNP : Option Str) :
    (mergeCollectionsNext customNP smartNP = none ↔
      truthyStr customNP = false ∧ truthyStr smartNP = false) ∧
    (truthyStr customNP = true ∨ truthyStr smartNP = true →
      mergeCollectionsNext customNP smartNP =
        some (jsInterpolate customNP ++ strLit "," ++ jsInterpolate smartNP)) := by
  by_cases hc : truthyStr customNP <;> by_cases hs : truthyStr smartNP <;>
    simp [mergeCollectionsNext, hc, hs]

/-- Witness for the amended C5 with one live and one exhausted side. -/
theorem mergeCollectionsNext_spec_witness :
    mergeCollectionsNext (some (strLit "X")) none =
      some (jsInterpolate (some (strLit "X")) ++ strLit "," ++ jsInterpolate none) :=
  (mergeCollectionsNext_spec (some (strLit "X")) none).2 (Or.inl (by decide))

/-! ## C6: GraphQL errors inside a 200 response are failures -/

/-- C6 — a structured-query response with HTTP 200 but a non-empty top-level
`errors` array does not return success: it is routed to the error classifier
and the call fails with the classified typed error, which is a RequestError
or more specific (never a mutation UserError). -/
theorem shopifyGraphqlRequest_200_errors_fail {α : Type}
    (resp : GraphqlHttpResponse α) (l : List GraphqlErrorEntry)
    (hok : resp.ok = true) (hstatus : resp.status = 200)
    (herr : resp.body.errors = some l) (hne : l ≠ []) :
    shopifyGraphqlRequest resp = .error (getGraphqlShopifyError 200 l) ∧
    (getGraphqlShopifyError 200 l = .authorizationError ∨
      getGraphqlShopifyError 200 l = .paymentError ∨
      getGraphqlShopifyError 200 l = .requestError) := by
  constructor
  · simp [shopifyGraphqlRequest, herr, hstatus]
  · by_cases h : l.any (·.indicatesAuth) <;> simp [getGraphqlShopifyError, h]

/-- Witness for C6: a 200 response with one GraphQL error entry fails with
RequestError. -/
theorem shopifyGraphqlRequest_200_errors_fail_witness :
    shopifyGraphqlRequest
        (⟨true, 200, ⟨(), some [⟨strLit "boom", false⟩]⟩⟩ : GraphqlHttpResponse Unit)
      = .error (getGraphqlShopifyError 200 [⟨strLit "boom", false⟩]) :=
  (shopifyGraphqlRequest_200_errors_fail _ _ rfl rfl rfl (by simp)).1

/-! ## C2: local discount-input validation, zero transport calls -/

/-- C2 — a percentage discount value outside [0,1], or a non-positive
fixed-amount value, makes `createBasicDiscountCode` fail with an InputError
before any network call: the transport trace is empty and no mutation
variables were ever built. -/
theorem createBasicDiscountCode_invalid_input_no_network
    (env : DiscountEnv) (discountInput : CreateBasicDiscountCodeInput) :
    (discountInput.valueType = .percentage →
      discountInput.value < 0 ∨ discountInput.value > 1 →
      createBasicDiscountCode env discountInput =
        (.error (.typed (.inputError
          (strLit "Invalid input: percentage value must be between 0 and 1"))),
         ⟨[], none⟩)) ∧
    (discountInput.valueType = .fixed_amount →
      discountInput.value ≤ 0 →
      createBasicDiscountCode env discountInput =
        (.error (.typed (.inputError
          (strLit "Invalid input: fixed_amount value must be greater than 0"))),
         ⟨[], none⟩)) := by
  constructor
  · intro hty hval
    simp [createBasicDiscountCode, validateDiscountInput, hty, hval]
  · intro hty hval
    have hne : discountInput.valueType ≠ .percentage := by
      rw [hty]; intro h; cases h
    simp [createBasicDiscountCode, validateDiscountInput, hty, hval, hne]

/-- Witness for C2: a percentage of 1.5 and a fixed amount of 0 both fail
locally with zero transport calls. -/
theorem createBasicDiscountCode_invalid_input_no_network_witness :
    (createBasicDiscountCode
        ⟨⟨true, true⟩, ⟨none, []⟩⟩
        ⟨strLit "t", strLit "C", strLit "2025-01-01", none, .percentage,
          (3 : ℚ) / 2, true, none, [], [], ⟨true, false, true⟩⟩).2.calls = [] ∧
    (createBasicDiscountCode
        ⟨⟨true, true⟩, ⟨none, []⟩⟩
        ⟨strLit "t", strLit "C", strLit "2025-01-01", none, .fixed_amount,
          0, true, none, [], [], ⟨true, false, true⟩⟩).2.calls = [] := by
  constructor
  · rw [(createBasicDiscountCode_invalid_input_no_network _ _).1 rfl
      (Or.inr (by norm_num))]
  · rw [(createBasicDiscountCode_invalid_input_no_network _ _).2 rfl le_rfl]

/-! ## C1: non-empty userErrors after a successful mutation round -/

/-- A concrete mutation user error used in the C1 development. -/
def ue0 : UserErrorEntry :=
  ⟨[strLit "basicCodeDiscount"], strLit "code taken", none⟩

/-- A discount input that passes the local validation. -/
def discountInput0 : CreateBasicDiscountCodeInput :=
  ⟨strLit "t", strLit "C", strLit "2025-01-01", none, .percentage,
    (1 : ℚ) / 2, true, none, [], [], ⟨true, false, true⟩⟩

/-- Claim C1 word for word: when the transport round of a mutation succeeds
and the mutation response carries a non-empty `userErrors` list, the
operation fails with a UserError carrying exactly that list and with no
other failure kind — for `createBasicDiscountCode` (on input passing the
local validation) and for `completeDraftOrder` (on a variant passing the
availability pre-check). -/
def mutationUserErrorsClaim : Prop :=
  (∀ (env : DiscountEnv) (discountInput : CreateBasicDiscountCodeInput),
    validateDiscountInput discountInput = none →
    env.mutationResponse.userErrors ≠ [] →
    (createBasicDiscountCode env discountInput).1 =
      .error (.typed (.userError env.mutationResponse.userErrors))) ∧
  (∀ (v : ProductVariant) (vs : List ProductVariant)
      (resp : DraftOrderCompleteResponse),
    v.availableForSale = true → resp.userErrors ≠ [] →
    (completeDraftOrder (v :: vs) resp).1 =
      .error (.typed (.userError resp.userErrors)))

/-- C1 counterexample — the claim fails on the normal rejected-mutation
shape: a response with a non-empty `userErrors` list and a **null**
`codeDiscountNode`. The source reads `codeDiscountNode.id` (ts:424) before
the `userErrors` check (ts:430), so the operation fails there with a raw JS
`TypeError`, not with the claimed UserError. -/
theorem mutationUserErrorsClaim_false : ¬ mutationUserErrorsClaim := by
  intro h
  have hc := h.1 ⟨⟨true, true⟩, ⟨none, [ue0]⟩⟩ discountInput0
    (by norm_num [validateDiscountInput, discountInput0]) (by simp [ue0])
  have he : (createBasicDiscountCode ⟨⟨true, true⟩, ⟨none, [ue0]⟩⟩
      discountInput0).1 = .error .jsTypeError := by
    norm_num [createBasicDiscountCode, validateDiscountInput, discountInput0]
  rw [he] at hc
  simp at hc

/-- C1 amended — when the transport round of a mutation succeeds and the
mutation response carries a non-empty `userErrors` list, then **provided
the response's payload node is non-null** (`codeDiscountNode` for
`createBasicDiscountCode`, `draftOrder` for `completeDraftOrder`) the
operation fails with a UserError carrying exactly that list and no other
failure kind; when the payload node is null, the operation instead fails
with a raw JS `TypeError` thrown while unwrapping the node, before the
`userErrors` check is reached. -/
theorem mutation_userErrors_fail_with_UserError_amended
    (env : DiscountEnv) (discountInput : CreateBasicDiscountCodeInput)
    (v : ProductVariant) (vs : List ProductVariant)
    (resp : DraftOrderCompleteResponse) :
    (validateDiscountInput discountInput = none →
      env.mutationResponse.userErrors ≠ [] →
      (env.mutationResponse.codeDiscountNode ≠ none →
        (createBasicDiscountCode env discountInput).1 =
          .error (.typed (.userError env.mutationResponse.userErrors))) ∧
      (env.mutationResponse.codeDiscountNode = none →
        (createBasicDiscountCode env discountInput).1 =
          .error .jsTypeError)) ∧
    (v.availableForSale = true → resp.userErrors ≠ [] →
      (resp.draftOrder ≠ none →
        (completeDraftOrder (v :: vs) resp).1 =
          .error (.typed (.userError resp.userErrors))) ∧
      (resp.draftOrder = none →
        (completeDraftOrder (v :: vs) resp).1 = .error .jsTypeError)) := by
  constructor
  · intro hval hue
    constructor
    · intro hnode
      cases hn : env.mutationResponse.codeDiscountNode with
      | none => exact absurd hn hnode
      | some node =>
        simp [createBasicDiscountCode, hval, hn, hue, getGraphqlShopifyUserError]
    · intro hnode
      simp [createBasicDiscountCode, hval, hnode]
  · intro hav hue
    constructor
    · intro hnode
      cases hn : resp.draftOrder with
      | none => exact absurd hn hnode
      | some d =>
        simp [completeDraftOrder, hav, hn, hue, getGraphqlShopifyUserError]
    · intro hnode
      simp [completeDraftOrder, hav, hnode]

/-- Witness for the amended C1: with the concrete user error `ue0`, both
operations surface exactly that UserError on a non-null payload node, and a
raw `TypeError` on the null node of the normal rejected shape. -/
theorem mutation_userErrors_fail_with_UserError_amended_witness :
    (createBasicDiscountCode
        ⟨⟨true, true⟩, ⟨some ⟨strLit "n", [strLit "SAVE10"]⟩, [ue0]⟩⟩
        discountInput0).1 = .error (.typed (.userError [ue0])) ∧
    (createBasicDiscountCode ⟨⟨true, true⟩, ⟨none, [ue0]⟩⟩
        discountInput0).1 = .error .jsTypeError ∧
    (completeDraftOrder [⟨strLit "11", true⟩]
        ⟨some ⟨strLit "d1", strLit "D1", some ⟨strLit "o1"⟩⟩, [ue0]⟩).1 =
      .error (.typed (.userError [ue0])) ∧
    (completeDraftOrder [⟨strLit "11", true⟩] ⟨none, [ue0]⟩).1 =
      .error .jsTypeError :=
  ⟨((mutation_userErrors_fail_with_UserError_amended
      ⟨⟨true, true⟩, ⟨some ⟨strLit "n", [strLit "SAVE10"]⟩, [ue0]⟩⟩
      discountInput0 ⟨strLit "11", true⟩ [] ⟨none, [ue0]⟩).1
      (by norm_num [validateDiscountInput, discountInput0])
      (by simp [ue0])).1 (by simp),
   ((mutation_userErrors_fail_with_UserError_amended
      ⟨⟨true, true⟩, ⟨none, [ue0]⟩⟩
      discountInput0 ⟨strLit "11", true⟩ [] ⟨none, [ue0]⟩).1
      (by norm_num [validateDiscountInput, discountInput0])
      (by simp [ue0])).2 rfl,
   ((mutation_userErrors_fail_with_UserError_amended
      ⟨⟨true, true⟩, ⟨none, [ue0]⟩⟩
      discountInput0 ⟨strLit "11", true⟩ []
      ⟨some ⟨strLit "d1", strLit "D1", some ⟨strLit "o1"⟩⟩, [ue0]⟩).2
      rfl (by simp [ue0])).1 (by simp),
   ((mutation_userErrors_fail_with_UserError_amended
      ⟨⟨true, true⟩, ⟨none, [ue0]⟩⟩
      discountInput0 ⟨strLit "11", true⟩ [] ⟨none, [ue0]⟩).2
      rfl (by simp [ue0])).2 rfl⟩

/-! ## C3: the variant pre-check of completeDraftOrder -/

/-- C3 — `completeDraftOrder` looks the variant up first: an empty lookup
result fails with VariantNotFoundError without attempting the completion
mutation, a first variant with `availableForSale = false` fails with
VariantNotAvailableForSaleError without attempting it, and only
`availableForSale = true` reaches the `draftOrderComplete` mutation. -/
theorem completeDraftOrder_variant_precheck (resp : DraftOrderCompleteResponse) :
    ((completeDraftOrder [] resp).1 = .error (.typed .variantNotFoundError) ∧
      TransportCall.draftOrderCompleteMutation ∉ (completeDraftOrder [] resp).2) ∧
    (∀ (v : ProductVariant) (vs : List ProductVariant),
      v.availableForSale = false →
      (completeDraftOrder (v :: vs) resp).1 =
          .error (.typed .variantNotAvailableForSaleError) ∧
        TransportCall.draftOrderCompleteMutation ∉
          (completeDraftOrder (v :: vs) resp).2) ∧
    (∀ (v : ProductVariant) (vs : List ProductVariant),
      v.availableForSale = true →
      TransportCall.draftOrderCompleteMutation ∈
        (completeDraftOrder (v :: vs) resp).2) := by
  refine ⟨⟨rfl, by simp [completeDraftOrder]⟩, ?_, ?_⟩
  · intro v vs hav
    constructor
    · simp [completeDraftOrder, hav]
    · simp [completeDraftOrder, hav]
  · intro v vs hav
    simp [completeDraftOrder, hav]

/-- Witness for C3 at concrete lookup results: no variant, an unavailable
variant, and an available one. -/
theorem completeDraftOrder_variant_precheck_witness :
    (completeDraftOrder []
        ⟨some ⟨strLit "d1", strLit "D1", some ⟨strLit "o1"⟩⟩, []⟩).1 =
      .error (.typed .variantNotFoundError) ∧
    (completeDraftOrder [⟨strLit "11", false⟩]
        ⟨some ⟨strLit "d1", strLit "D1", some ⟨strLit "o1"⟩⟩, []⟩).1 =
      .error (.typed .variantNotAvailableForSaleError) ∧
    TransportCall.draftOrderCompleteMutation ∈
      (completeDraftOrder [⟨strLit "11", true⟩]
        ⟨some ⟨strLit "d1", strLit "D1", some ⟨strLit "o1"⟩⟩, []⟩).2 :=
  ⟨(completeDraftOrder_variant_precheck _).1.1,
   ((completeDraftOrder_variant_precheck _).2.1 ⟨strLit "11", false⟩ [] rfl).1,
   (completeDraftOrder_variant_precheck _).2.2 ⟨strLit "11", true⟩ [] rfl⟩

/-! ## C7: subscription fields present iff eligible -/

/-- C7 — in the mutation variables `prepareBasicDiscountCodeVariable`
builds, the subscription-specific fields `appliesOnOneTimePurchase`,
`appliesOnSubscription` and `recurringCycleLimit` are present exactly when
the prior eligibility read returned true; when it returned false they are
omitted — not sent as `false`, `0` or `null`. -/
theorem prepare_subscription_fields_iff_eligible
    (discountInput : CreateBasicDiscountCodeInput)
    (isEligibleForSubscription : Bool) :
    ((prepareBasicDiscountCodeVariable discountInput
        isEligibleForSubscription).appliesOnOneTimePurchase ≠ .absent ↔
      isEligibleForSubscription = true) ∧
    ((prepareBasicDiscountCodeVariable discountInput
        isEligibleForSubscription).appliesOnSubscription ≠ .absent ↔
      isEligibleForSubscription = true) ∧
    ((prepareBasicDiscountCodeVariable discountInput
        isEligibleForSubscription).recurringCycleLimit ≠ .absent ↔
      isEligibleForSubscription = true) := by
  cases isEligibleForSubscription <;>
    cases h : discountInput.valueType <;>
      simp [prepareBasicDiscountCodeVariable, h]

/-! ## C10: the `loadOrders` page-size default -/

/-- C10 — in the variables `loadOrders` sends to the transport layer, an
absent or falsy `first` (including the explicit value `0`) becomes `50`,
and a truthy `first` is passed through unchanged. -/
theorem loadOrders_first_defaults (q : ShopifyOrdersGraphqlQueryParams) :
    (q.first = none → (buildLoadOrdersVariables q).first = 50) ∧
    (q.first = some 0 → (buildLoadOrdersVariables q).first = 50) ∧
    (∀ n : Int, q.first = some n → n ≠ 0 →
      (buildLoadOrdersVariables q).first = n) := by
  refine ⟨fun h => ?_, fun h => ?_, fun n h hn => ?_⟩
  · simp [buildLoadOrdersVariables, jsOrNumber, h]
  · simp [buildLoadOrdersVariables, jsOrNumber, h]
  · simp [buildLoadOrdersVariables, jsOrNumber, h, hn]

/-- Witness for C10 at the three concrete `first` values
`undefined`, `0` and `7`. -/
theorem loadOrders_first_defaults_witness :
    (buildLoadOrdersVariables ⟨none, none, none, none, none⟩).first = 50 ∧
    (buildLoadOrdersVariables ⟨some 0, none, none, none, none⟩).first = 50 ∧
    (buildLoadOrdersVariables ⟨some 7, none, none, none, none⟩).first = 7 :=
  ⟨(loadOrders_first_defaults _).1 rfl,
   (loadOrders_first_defaults _).2.1 rfl,
   (loadOrders_first_defaults _).2.2 7 rfl (by decide)⟩

end ShopifyMcp
